import Mathlib

/-!
Verification development for `src/scripts/sendPgmetrics.ts`: a shallow
embedding of the pgmetrics sender (configuration loading, the admission
client `shouldSend`, the upload-handshake helpers, the collector invocation
`runPgmetrics`, and one iteration of the send loop), together with theorems
about the embedded definitions.

JavaScript strings are modelled as Lean `String` (logically a list of
`Char`); the JS builtins the script uses (`split`, `trim`, `toLowerCase`,
`Buffer.byteLength`, `Array.prototype.splice`) are modelled by the
executable helpers below.
-/

/-- Model of JS `String.prototype.split(sep)` for a single-character
separator, on the character list: `"a,b".split(',') = ["a","b"]`,
`"".split(',') = [""]`. -/
def splitChar (sep : Char) : List Char → List (List Char)
  | [] => [[]]
  | c :: rest =>
    let r := splitChar sep rest
    if c = sep then [] :: r
    else
      match r with
      | [] => [[c]]
      | h :: t => (c :: h) :: t

/-- Prefix of a character list strictly before the first occurrence of
`sep` (the whole list when `sep` does not occur). -/
def takeUntilChar (sep : Char) : List Char → List Char
  | [] => []
  | c :: rest => if c = sep then [] else c :: takeUntilChar sep rest

/-- Suffix of a character list from the first occurrence of `sep`
(inclusive); `[]` when `sep` does not occur. -/
def dropUntilChar (sep : Char) : List Char → List Char
  | [] => []
  | c :: rest => if c = sep then c :: rest else dropUntilChar sep rest

/-- Model of JS `String.prototype.trim`: strip leading and trailing
whitespace. -/
def jsTrim (s : String) : String :=
  ⟨(s.data.dropWhile Char.isWhitespace).reverse.dropWhile Char.isWhitespace |>.reverse⟩

/-- Model of JS `String.prototype.toLowerCase` (ASCII, which is all the
script compares against). -/
def jsToLower (s : String) : String :=
  ⟨s.data.map Char.toLower⟩

/-- Model of JS `String.prototype.split(sep)` returning strings. -/
def jsSplit (sep : Char) (s : String) : List String :=
  (splitChar sep s.data).map fun l => ⟨l⟩

/-- Model of `Buffer.byteLength(raw)` for a UTF-8 string: the byte size of
its UTF-8 encoding. -/
def jsByteLength (s : String) : Nat :=
  s.data.foldl (fun n c => n + c.utf8Size) 0

/-- `splitChar` never returns the empty list of pieces. -/
theorem splitChar_ne_nil (sep : Char) (l : List Char) : splitChar sep l ≠ [] := by
  cases l with
  | nil => simp [splitChar]
  | cons c rest =>
    simp only [splitChar]
    split
    · simp
    · split
      · simp
      · simp

/-- The first piece of a single-character split is the prefix before the
first occurrence of the separator. -/
theorem splitChar_headD (sep : Char) (l : List Char) :
    (splitChar sep l).headD [] = takeUntilChar sep l := by
  induction l with
  | nil => rfl
  | cons c rest ih =>
    simp only [splitChar, takeUntilChar]
    by_cases h : c = sep
    · simp [h]
    · simp only [if_neg h]
      cases hr : splitChar sep rest with
      | nil => exact absurd hr (splitChar_ne_nil sep rest)
      | cons x t =>
        simp only [List.headD]
        rw [hr] at ih
        simp only [List.headD] at ih
        simp [ih]

section AdmissionClient

/-- The fields of an admission-check JSON body that `shouldSend` reads
(`error`, `reason`, `nextCollectionAt`); any of them may be absent. -/
structure AdmissionBody where
  error : Option String
  reason : Option String
  nextCollectionAt : Option Int
deriving DecidableEq

/-- Outcome of the `fetch` in `shouldSend`: either an HTTP response with a
status and a body (`none` when `response.json()` rejects, i.e. the body
fails to parse as JSON), or a transport/network failure. For a transport
failure, `parsed` records the result of `JSON.parse(errorMessage)` in the
catch block: `none` when the message is not JSON, otherwise the fields it
carries. -/
inductive FetchOutcome where
  | response (status : Nat) (body : Option AdmissionBody)
  | transportFailure (message : String) (parsed : Option AdmissionBody)
deriving DecidableEq

/-- Model of `response.ok`: status in the 2xx success range. -/
def respOk (status : Nat) : Bool :=
  decide (200 ≤ status) && decide (status < 300)

/-- The wait computed in the 429 branch of `shouldSend`:
`data.nextCollectionAt ? Math.max(0, data.nextCollectionAt - Date.now()) : 2500`.
JS truthiness makes a present-but-zero `nextCollectionAt` take the 2500
default. -/
def computeWait429 (nextCollectionAt : Option Int) (now : Int) : Int :=
  match nextCollectionAt with
  | some v => if v = 0 then 2500 else max 0 (v - now)
  | none => 2500

/-- The wait computed in the catch block of `shouldSend`: 2500 unless the
error message parses as JSON with a truthy `nextCollectionAt`, in which
case `Math.max(0, parsed.nextCollectionAt - Date.now())`. -/
def catchWait (parsed : Option AdmissionBody) (now : Int) : Int :=
  match parsed with
  | some p =>
    match p.nextCollectionAt with
    | some v => if v = 0 then 2500 else max 0 (v - now)
    | none => 2500
  | none => 2500

/-- Embedding of `shouldSend` (src/scripts/sendPgmetrics.ts lines 85-136):
given the fetch outcome and the current time, returns the admission
decision (`true` = proceed) and the wait in milliseconds the function
performs before returning. The Lean function is total: every branch of the
source resolves to a return, never a throw. -/
def shouldSend (o : FetchOutcome) (now : Int) : Bool × Int :=
  match o with
  | .response status body =>
    if status = 403 then (false, 30000)
    else if status = 404 then (false, 30000)
    else if status = 429 then
      (false, computeWait429 (body.bind (·.nextCollectionAt)) now)
    else if respOk status = false then (false, 2500)
    else (true, 0)
  | .transportFailure _ parsed => (false, catchWait parsed now)

/-- An outcome on which the source's `shouldSend` reaches `return true`:
an HTTP response whose status is in the 2xx range. -/
def proceedOutcome (o : FetchOutcome) : Bool :=
  match o with
  | .response status _ => respOk status
  | .transportFailure _ _ => false

theorem computeWait429_nonneg (nca : Option Int) (now : Int) :
    0 ≤ computeWait429 nca now := by
  cases nca with
  | none => simp [computeWait429]
  | some v =>
    simp only [computeWait429]
    split
    · norm_num
    · exact le_max_left 0 _

theorem catchWait_nonneg (parsed : Option AdmissionBody) (now : Int) :
    0 ≤ catchWait parsed now := by
  cases parsed with
  | none => simp [catchWait]
  | some p =>
    cases h : p.nextCollectionAt with
    | none => simp [catchWait, h]
    | some v =>
      simp only [catchWait, h]
      split
      · norm_num
      · exact le_max_left 0 _

/-- On every non-proceed outcome the decision is `false`. -/
theorem shouldSend_deny (o : FetchOutcome) (now : Int)
    (h : proceedOutcome o = false) : (shouldSend o now).1 = false := by
  cases o with
  | transportFailure m p => rfl
  | response status body =>
    simp only [proceedOutcome] at h
    simp only [shouldSend]
    split_ifs <;> simp_all

/-- The wait performed by `shouldSend` is never negative. -/
theorem shouldSend_wait_nonneg (o : FetchOutcome) (now : Int) :
    0 ≤ (shouldSend o now).2 := by
  cases o with
  | transportFailure m p => exact catchWait_nonneg p now
  | response status body =>
    simp only [shouldSend]
    split_ifs
    · norm_num
    · norm_num
    · exact computeWait429_nonneg _ now
    · norm_num
    · norm_num

end AdmissionClient

/-- C1: for every response to the admission check — status 403, 404, 429,
any other non-success status, a body that fails to parse as JSON, or a
transport/network failure — `shouldSend` resolves to a Deny outcome
(returns `false`) after performing the branch's wait (the performed wait is
well defined and never negative), and never throws past its boundary (the
embedding is a total function: every branch returns). -/
theorem C1_shouldSend_always_denies_on_failure (o : FetchOutcome) (now : Int)
    (h : proceedOutcome o = false) :
    (shouldSend o now).1 = false ∧ 0 ≤ (shouldSend o now).2 :=
  ⟨shouldSend_deny o now h, shouldSend_wait_nonneg o now⟩

/-- Witness for C1 at a concrete 403 response with an unparseable body. -/
theorem C1_shouldSend_always_denies_on_failure_witness :
    (shouldSend (.response 403 none) 1000).1 = false
    ∧ 0 ≤ (shouldSend (.response 403 none) 1000).2 :=
  C1_shouldSend_always_denies_on_failure (.response 403 none) 1000 (by decide)

section UploadHandshake

/-- Characters remaining after the `"://"` scheme separator (model of the
platform URL parser's scheme/authority boundary for the absolute http(s)
URLs the service returns). -/
def afterSchemeSep : List Char → List Char
  | ':' :: '/' :: '/' :: rest => rest
  | _ :: rest => afterSchemeSep rest
  | [] => []

/-- Prefix strictly before the first `'?'` or `'#'` (the pathname stops at
the query or fragment). -/
def takeBeforeStop : List Char → List Char
  | [] => []
  | c :: rest => if c = '?' ∨ c = '#' then [] else c :: takeBeforeStop rest

/-- Model of `new URL(url).pathname` for a well-formed absolute http(s)
URL without userinfo: the part of the URL from the first `'/'` after the
scheme separator up to the query/fragment, `"/"` when that part is empty. -/
def urlPathname (url : List Char) : List Char :=
  let p := takeBeforeStop (dropUntilChar '/' (afterSchemeSep url))
  if p = [] then ['/'] else p

/-- Embedding of the key derivation in `finishedUpload`
(src/scripts/sendPgmetrics.ts line 187):
`new URL(url).pathname.substring(1).split('.')[0] ?? ''`. -/
def derivedKey (url : String) : String :=
  ⟨(splitChar '.' ((urlPathname url.data).drop 1)).headD []⟩

/-- Embedding of the bucket derivation in `finishedUpload`
(src/scripts/sendPgmetrics.ts line 188):
`url.split('/')[2]?.split('.')[0] ?? ''` (a missing third chunk
short-circuits to `''`, which is also what splitting the empty chunk
yields). -/
def derivedBucket (url : String) : String :=
  ⟨(splitChar '.' ((splitChar '/' url.data).getD 2 [])).headD []⟩

/-- Modelled from the spec: the spec's own description of the key — "URL
path, first segment, prefix before the first literal dot" — i.e. the first
`/`-delimited segment of the pathname (leading slash removed), truncated
at its first dot. Kept separate from `derivedKey` (the code's derivation)
so the two can be compared. -/
def specFirstSegmentKey (url : String) : String :=
  ⟨takeUntilChar '.' (takeUntilChar '/' ((urlPathname url.data).drop 1))⟩

end UploadHandshake

section Config

/-- The environment variables the script reads for its configuration
(src/scripts/sendPgmetrics.ts lines 17-29); `none` models an unset
variable. -/
structure EnvVars where
  PG_PASSWORD : Option String
  PG_USER : Option String
  PG_HOST : Option String
  PG_PORT : Option String
  PG_DATABASES : Option String
  PG_TIMEOUT : Option String
  PG_OMIT : Option String
  PG_SQL_LENGTH : Option String
  PG_STATEMENTS_LIMIT : Option String
deriving DecidableEq

/-- An environment with every recognized setting absent. -/
def emptyEnv : EnvVars :=
  { PG_PASSWORD := none, PG_USER := none, PG_HOST := none, PG_PORT := none,
    PG_DATABASES := none, PG_TIMEOUT := none, PG_OMIT := none,
    PG_SQL_LENGTH := none, PG_STATEMENTS_LIMIT := none }

/-- The configuration values the script computes from the environment. -/
structure Config where
  PGPASSWORD : String
  PGUSER : String
  PGHOST : String
  PGPORT : String
  PG_DATABASES : String
  PG_TIMEOUT : String
  PG_OMIT : String
  PG_SQL_LENGTH : String
  PG_STATEMENTS_LIMIT : String
deriving DecidableEq

/-- Embedding of the configuration loading
(src/scripts/sendPgmetrics.ts lines 17-29): each setting is the
environment value with `??`-defaulting; `PG_DATABASES` is additionally
trimmed and lowercased. -/
def configOf (e : EnvVars) : Config :=
  { PGPASSWORD := e.PG_PASSWORD.getD "postgres"
    PGUSER := e.PG_USER.getD "postgres"
    PGHOST := e.PG_HOST.getD "/var/run/postgresql"
    PGPORT := e.PG_PORT.getD "5432"
    PG_DATABASES := jsToLower (jsTrim (e.PG_DATABASES.getD "all"))
    PG_TIMEOUT := e.PG_TIMEOUT.getD "60"
    PG_OMIT := e.PG_OMIT.getD "log"
    PG_SQL_LENGTH := e.PG_SQL_LENGTH.getD "10000"
    PG_STATEMENTS_LIMIT := e.PG_STATEMENTS_LIMIT.getD "10000" }

/-- Embedding of `ALL_DBS` (src/scripts/sendPgmetrics.ts line 24):
the database selection policy is "all databases" when the normalized
`PG_DATABASES` is `"all"` or empty. -/
def ALL_DBS (c : Config) : Bool :=
  c.PG_DATABASES == "all" || c.PG_DATABASES == ""

end Config

section Startup

/-- Embedding of the startup configuration checks
(src/scripts/sendPgmetrics.ts lines 31-40), run before the send loop:
returns `some code` when the process exits at startup with that code,
`none` when startup proceeds. `SERVER_ID` is `process.env.SERVER_ID ??
process.argv[2]` and is falsy when absent or empty; `PGPASSWORD` defaults
to `"postgres"` when the variable is unset; `PGHOST` defaults to the local
socket path. -/
def startupExitCode (testMode : Bool) (serverIdEnv argv2 : Option String)
    (pgPasswordEnv pgHostEnv : Option String) : Option Nat :=
  let sid := serverIdEnv <|> argv2
  let pgPassword := pgPasswordEnv.getD "postgres"
  let pgHost := pgHostEnv.getD "/var/run/postgresql"
  if testMode = false ∧ sid.getD "" = "" then some 1
  else if pgPassword = "" ∧ pgHost ≠ "/var/run/postgresql" then some 1
  else none

end Startup

section Collector

/-- Result of `spawnSync('pgmetrics', ...)` as the script reads it:
`status` is `none` when the process failed to launch (`null` in JS),
`stderr` is the captured error stream (absent when nothing was captured),
`errorMessage` is `r.error?.message` (absent when the launch did not
error). -/
structure SpawnResult where
  status : Option Int
  stderr : Option String
  errorMessage : Option String
deriving DecidableEq

/-- The diagnostic text thrown by `runPgmetrics`
(src/scripts/sendPgmetrics.ts line 235):
`r.stderr?.trim() || r.error?.message || 'pgmetrics failed'` — JS `||`
falls through on an absent field and on the empty string. -/
def collectDiagnostic (r : SpawnResult) : String :=
  let t := jsTrim (r.stderr.getD "")
  if t ≠ "" then t
  else
    let m := r.errorMessage.getD ""
    if m ≠ "" then m else "pgmetrics failed"

/-- Embedding of the tail of `runPgmetrics`
(src/scripts/sendPgmetrics.ts lines 234-237): the call succeeds exactly
when the subprocess exited with status 0 (`r.status !== 0` is also true
for the `null` status of a launch failure); otherwise it throws an error
carrying the diagnostic text. -/
def runPgmetricsResult (r : SpawnResult) : Except String Unit :=
  if r.status = some 0 then .ok () else .error (collectDiagnostic r)

/-- Embedding of the argument list built by `runPgmetrics`
(src/scripts/sendPgmetrics.ts lines 204-215) before database selection is
applied. -/
def baseArgs (c : Config) (tmpFile : String) : List String :=
  ["-h", c.PGHOST, "-p", c.PGPORT, "-U", c.PGUSER, "-w",
   "--timeout", c.PG_TIMEOUT, "--omit", c.PG_OMIT,
   "--sql-length", c.PG_SQL_LENGTH, "--statements-limit", c.PG_STATEMENTS_LIMIT,
   "-f", "json", "-o", tmpFile]

/-- Model of `args.splice(n, 0, a)`: insert `a` at index `n` (appending
when `n` is past the end). -/
def spliceInsert (n : Nat) (a : α) : List α → List α
  | [] => [a]
  | x :: xs =>
    match n with
    | 0 => a :: x :: xs
    | m + 1 => x :: spliceInsert m a xs

/-- The explicit database list
(src/scripts/sendPgmetrics.ts line 219):
`PG_DATABASES.split(',').map((d) => d.trim()).filter(Boolean)`. -/
def dbArgs (pgDatabases : String) : List String :=
  ((jsSplit ',' pgDatabases).map jsTrim).filter (fun d => d ≠ "")

/-- Embedding of database selection in `runPgmetrics`
(src/scripts/sendPgmetrics.ts lines 216-221): with the "all databases"
policy, `--all-dbs` is spliced in right after `-w`; otherwise the trimmed,
non-empty database names are appended as trailing positional arguments. -/
def buildArgs (c : Config) (tmpFile : String) : List String :=
  let args := baseArgs c tmpFile
  if ALL_DBS c then spliceInsert (args.indexOf "-w" + 1) "--all-dbs" args
  else args ++ dbArgs c.PG_DATABASES

end Collector

section SendLoop

/-- The external inputs one iteration of `loop`
(src/scripts/sendPgmetrics.ts lines 240-289) can observe: the admission
fetch outcome and current time, the collection subprocess result, the
bytes the subprocess wrote to the temp file (read back as a UTF-8 string),
the upload-target response (`none` models `false`), and the results of the
payload transfer and the completion confirmation. -/
structure IterEnv where
  admission : FetchOutcome
  now : Int
  spawn : SpawnResult
  fileContent : String
  uploadUrlOutcome : Option String
  uploadOk : Bool
  finishOk : Bool

/-- Observable effects of one iteration of `loop`: the sleeps performed in
order (milliseconds), the temp-file lifecycle, the size the loop reports
(and sends as the `x-content-length` header when it requests an upload
target), which handshake steps were attempted, the logged transfer and
confirmation outcomes, and the error message logged at the loop boundary,
if any. -/
structure IterResult where
  waits : List Int
  tempFileCreated : Bool
  tempFileExistsAfter : Bool
  reportedSize : Option Nat
  sentSizeHeader : Option Nat
  uploadUrlRequested : Bool
  uploadAttempted : Bool
  finishAttempted : Bool
  loggedUpload : Option Bool
  loggedFinish : Option Bool
  loggedError : Option String
deriving DecidableEq

/-- Embedding of one iteration of `loop`
(src/scripts/sendPgmetrics.ts lines 240-289). On denial: sleep 250 ms and
continue. On approval: create the temp file and run the collector; on
collection failure best-effort delete the file, and the rethrown error is
caught at the loop boundary, logged, and followed by a 1000 ms sleep. On
collection success: read the file, delete it immediately (before any
network call), compute the byte size, request an upload target sized for
the payload; a falsy URL (`false` or the empty string) means a 1000 ms
sleep and continue; otherwise PUT the payload, then unconditionally request
completion confirmation, log both outcomes, and sleep 1000 ms. -/
def runIteration (env : IterEnv) : IterResult :=
  let sres := shouldSend env.admission env.now
  if sres.1 then
    match runPgmetricsResult env.spawn with
    | .error msg =>
      { waits := [1000], tempFileCreated := true, tempFileExistsAfter := false,
        reportedSize := none, sentSizeHeader := none, uploadUrlRequested := false,
        uploadAttempted := false, finishAttempted := false,
        loggedUpload := none, loggedFinish := none, loggedError := some msg }
    | .ok () =>
      let raw := env.fileContent
      let size := jsByteLength raw
      let urlFalsy :=
        match env.uploadUrlOutcome with
        | none => true
        | some u => u == ""
      if urlFalsy then
        { waits := [1000], tempFileCreated := true, tempFileExistsAfter := false,
          reportedSize := some size, sentSizeHeader := some size, uploadUrlRequested := true,
          uploadAttempted := false, finishAttempted := false,
          loggedUpload := none, loggedFinish := none, loggedError := none }
      else
        { waits := [1000], tempFileCreated := true, tempFileExistsAfter := false,
          reportedSize := some size, sentSizeHeader := some size, uploadUrlRequested := true,
          uploadAttempted := true, finishAttempted := true,
          loggedUpload := some env.uploadOk, loggedFinish := some env.finishOk,
          loggedError := none }
  else
    { waits := [sres.2, 250], tempFileCreated := false, tempFileExistsAfter := false,
      reportedSize := none, sentSizeHeader := none, uploadUrlRequested := false,
      uploadAttempted := false, finishAttempted := false,
      loggedUpload := none, loggedFinish := none, loggedError := none }

end SendLoop

section ConcreteScenarios

/-- A concrete iteration environment: admission approved, collection
succeeded writing 4 bytes, an upload target obtained, transfer failed,
confirmation succeeded. -/
def envOkUpload : IterEnv :=
  { admission := .response 200 none, now := 0,
    spawn := { status := some 0, stderr := none, errorMessage := none },
    fileContent := "abcd",
    uploadUrlOutcome := some "https://bucket1.storage.example/abc123.json?sig=x",
    uploadOk := false, finishOk := true }

/-- A concrete iteration environment: admission approved, collection
subprocess exited with status 1 and stderr "connection refused". -/
def envCollectFail : IterEnv :=
  { admission := .response 200 none, now := 0,
    spawn := { status := some 1, stderr := some "connection refused\n", errorMessage := none },
    fileContent := "",
    uploadUrlOutcome := none, uploadOk := false, finishOk := false }

/-- A concrete iteration environment: admission denied with a 403. -/
def envDenied : IterEnv :=
  { admission := .response 403 none, now := 0,
    spawn := { status := some 0, stderr := none, errorMessage := none },
    fileContent := "",
    uploadUrlOutcome := none, uploadOk := false, finishOk := false }

end ConcreteScenarios

/-- C2: in every loop iteration the temporary snapshot file does not
survive the iteration (once created it is deleted before the next
iteration begins, on every exit path — denial, collection failure, missing
upload target, and the full handshake), and when admission is approved and
the collection subprocess succeeds, the size the loop reports — which is
also the value sent as the payload-size header — equals the byte length of
the file the collector produced. -/
theorem C2_temp_file_deleted_and_size_reported (env : IterEnv) :
    (runIteration env).tempFileExistsAfter = false
    ∧ ((shouldSend env.admission env.now).1 = true → env.spawn.status = some 0 →
        (runIteration env).reportedSize = some (jsByteLength env.fileContent)
        ∧ (runIteration env).sentSizeHeader = some (jsByteLength env.fileContent)) := by
  constructor
  · simp only [runIteration]
    split
    · split
      · rfl
      · split
        · rfl
        · rfl
    · rfl
  · intro h1 h2
    simp only [runIteration, runPgmetricsResult, h1, h2, if_true]
    split <;> exact ⟨rfl, rfl⟩

/-- Witness for C2 at the concrete successful-collection environment
(4-byte snapshot). -/
theorem C2_temp_file_deleted_and_size_reported_witness :
    (runIteration envOkUpload).tempFileExistsAfter = false
    ∧ (runIteration envOkUpload).reportedSize = some 4
    ∧ (runIteration envOkUpload).sentSizeHeader = some 4 :=
  ⟨(C2_temp_file_deleted_and_size_reported envOkUpload).1,
   ((C2_temp_file_deleted_and_size_reported envOkUpload).2 (by decide) (by decide)).1,
   ((C2_temp_file_deleted_and_size_reported envOkUpload).2 (by decide) (by decide)).2⟩

/-- C3 counterexample: the claim says that whenever the 429 body carries
`nextCollectionAt`, the wait equals `nextCollectionAt` minus the current
time floored at zero. At the concrete input `nextCollectionAt = 0` (a
timestamp in the past) with current time 1000 the code's wait is 2500, not
`max 0 (0 - 1000) = 0`: JS truthiness routes a present-but-zero
`nextCollectionAt` to the 2500 default. -/
theorem C3_wait429_counterexample :
    computeWait429 (some 0) 1000 = 2500
    ∧ max 0 ((0 : Int) - 1000) = 0
    ∧ computeWait429 (some 0) 1000 ≠ max 0 ((0 : Int) - 1000) := by
  decide

/-- C3 amended: for every 429 admission response whose body carries a
nonzero `nextCollectionAt`, the computed wait equals `nextCollectionAt`
minus the current time floored at zero — never negative, exactly 0 for
every nonzero `nextCollectionAt` in the past, and 5000 for
`nextCollectionAt = now + 5000`; when `nextCollectionAt` is absent — or
present but equal to 0, which JS truthiness treats as absent — the wait is
the 2.5 s default. -/
theorem C3_wait429_amended (v now : Int) (hv : v ≠ 0) :
    computeWait429 (some v) now = max 0 (v - now)
    ∧ 0 ≤ computeWait429 (some v) now
    ∧ (v ≤ now → computeWait429 (some v) now = 0)
    ∧ (0 ≤ now → computeWait429 (some (now + 5000)) now = 5000)
    ∧ computeWait429 none now = 2500
    ∧ computeWait429 (some 0) now = 2500 := by
  refine ⟨by simp [computeWait429, hv], computeWait429_nonneg _ _, ?_, ?_, rfl, by simp [computeWait429]⟩
  · intro hpast
    simp only [computeWait429, if_neg hv]
    exact max_eq_left (by omega)
  · intro hnow
    have hne : now + 5000 ≠ 0 := by omega
    simp only [computeWait429, if_neg hne]
    have : now + 5000 - now = 5000 := by ring
    rw [this]
    decide

/-- Witness for C3 amended at `nextCollectionAt = -1` (in the past) and
current time 1000: the wait is exactly 0. -/
theorem C3_wait429_amended_witness : computeWait429 (some (-1)) 1000 = 0 :=
  (C3_wait429_amended (-1) 1000 (by decide)).2.2.1 (by decide)

/-- C4: whenever an upload target URL is obtained (admission approved,
collection succeeded, and the target request returned a non-falsy URL),
the loop performs the payload transfer and then unconditionally attempts
the completion confirmation, logging both outcomes — `env.uploadOk` is
universally quantified, so this holds in particular when the transfer
returned `false` — and then sleeps 1000 ms before the next iteration. -/
theorem C4_upload_then_confirm_unconditionally (env : IterEnv) (u : String)
    (h1 : (shouldSend env.admission env.now).1 = true)
    (h2 : env.spawn.status = some 0)
    (h3 : env.uploadUrlOutcome = some u) (h4 : u ≠ "") :
    (runIteration env).uploadAttempted = true
    ∧ (runIteration env).finishAttempted = true
    ∧ (runIteration env).loggedUpload = some env.uploadOk
    ∧ (runIteration env).loggedFinish = some env.finishOk
    ∧ (runIteration env).waits = [1000] := by
  simp only [runIteration, runPgmetricsResult, h1, h2, h3, if_true]
  have hu : (u == "") = false := by simp [h4]
  simp [hu]

/-- Witness for C4 at the concrete environment whose transfer failed
(`uploadOk = false`): the completion confirmation is still attempted and
both outcomes are logged. -/
theorem C4_upload_then_confirm_unconditionally_witness :
    (runIteration envOkUpload).uploadAttempted = true
    ∧ (runIteration envOkUpload).finishAttempted = true
    ∧ (runIteration envOkUpload).loggedUpload = some false
    ∧ (runIteration envOkUpload).loggedFinish = some true
    ∧ (runIteration envOkUpload).waits = [1000] :=
  C4_upload_then_confirm_unconditionally envOkUpload
    "https://bucket1.storage.example/abc123.json?sig=x"
    (by decide) (by decide) (by decide) (by decide)

/-- C5 counterexample: the claim derives the storage key from the URL
path's FIRST SEGMENT (prefix before its first dot), but the code takes the
whole pathname minus its leading slash and truncates at the first dot. At
the concrete multi-segment URL below the code derives `"dir/abc123"` while
the claim's first-segment rule gives `"dir"`. -/
theorem C5_key_bucket_counterexample :
    derivedKey "https://bucket1.storage.example/dir/abc123.json" = "dir/abc123"
    ∧ specFirstSegmentKey "https://bucket1.storage.example/dir/abc123.json" = "dir"
    ∧ derivedKey "https://bucket1.storage.example/dir/abc123.json"
        ≠ specFirstSegmentKey "https://bucket1.storage.example/dir/abc123.json" := by
  decide

/-- C5 amended: for every upload target URL, the confirmation step derives
the storage key as the URL's whole pathname with the leading slash
removed, truncated at the first literal dot (coinciding with the first
segment's dot-prefix only for single-segment paths), and the storage
bucket as the prefix before the first dot of the third slash-delimited
chunk of the URL string (the host's first dot-delimited label for URLs
without userinfo), purely by parsing the URL and with no extra network
call (both derivations are functions of the URL string alone); in
particular, for https://bucket1.storage.example/abc123.json?sig=x the
derived bucket is bucket1 and the derived key is abc123. -/
theorem C5_key_bucket_amended (url : String) :
    derivedKey url = ⟨takeUntilChar '.' ((urlPathname url.data).drop 1)⟩
    ∧ derivedBucket url = ⟨takeUntilChar '.' ((splitChar '/' url.data).getD 2 [])⟩
    ∧ derivedBucket "https://bucket1.storage.example/abc123.json?sig=x" = "bucket1"
    ∧ derivedKey "https://bucket1.storage.example/abc123.json?sig=x" = "abc123" :=
  ⟨congrArg String.mk (splitChar_headD '.' ((urlPathname url.data).drop 1)),
   congrArg String.mk (splitChar_headD '.' ((splitChar '/' url.data).getD 2 [])),
   by decide, by decide⟩

/-- C6: when admission is approved but the collection subprocess exits
with non-zero status or fails to launch (`status ≠ some 0` covers the
`null` status of a launch failure), the loop logs an error carrying the
tool's diagnostic text — the trimmed captured stderr when non-empty, else
the launch-failure message when non-empty, else "pgmetrics failed" — the
partial temp file does not survive the iteration, no upload-target request
or payload transfer is attempted, and the loop sleeps the short 1000 ms
default before retrying. -/
theorem C6_collection_failure_path (env : IterEnv)
    (h1 : (shouldSend env.admission env.now).1 = true)
    (h2 : env.spawn.status ≠ some 0) :
    (runIteration env).loggedError = some (collectDiagnostic env.spawn)
    ∧ (runIteration env).tempFileExistsAfter = false
    ∧ (runIteration env).uploadUrlRequested = false
    ∧ (runIteration env).uploadAttempted = false
    ∧ (runIteration env).finishAttempted = false
    ∧ (runIteration env).waits = [1000]
    ∧ (jsTrim (env.spawn.stderr.getD "") ≠ "" →
        collectDiagnostic env.spawn = jsTrim (env.spawn.stderr.getD ""))
    ∧ (jsTrim (env.spawn.stderr.getD "") = "" → env.spawn.errorMessage.getD "" ≠ "" →
        collectDiagnostic env.spawn = env.spawn.errorMessage.getD "")
    ∧ (jsTrim (env.spawn.stderr.getD "") = "" → env.spawn.errorMessage.getD "" = "" →
        collectDiagnostic env.spawn = "pgmetrics failed") := by
  have hred : runIteration env =
      { waits := [1000], tempFileCreated := true, tempFileExistsAfter := false,
        reportedSize := none, sentSizeHeader := none, uploadUrlRequested := false,
        uploadAttempted := false, finishAttempted := false,
        loggedUpload := none, loggedFinish := none,
        loggedError := some (collectDiagnostic env.spawn) } := by
    simp only [runIteration, runPgmetricsResult, h1, if_true, if_neg h2]
  rw [hred]
  refine ⟨rfl, rfl, rfl, rfl, rfl, rfl, ?_, ?_, ?_⟩
  · intro hs
    simp [collectDiagnostic, hs]
  · intro hs hm
    simp [collectDiagnostic, hs, hm]
  · intro hs hm
    simp [collectDiagnostic, hs, hm]

/-- Witness for C6 at the concrete scenario of the spec: exit status 1
with stderr "connection refused". -/
theorem C6_collection_failure_path_witness :
    (runIteration envCollectFail).loggedError = some "connection refused"
    ∧ (runIteration envCollectFail).uploadUrlRequested = false
    ∧ (runIteration envCollectFail).uploadAttempted = false
    ∧ (runIteration envCollectFail).waits = [1000] :=
  ⟨(C6_collection_failure_path envCollectFail (by decide) (by decide)).1,
   (C6_collection_failure_path envCollectFail (by decide) (by decide)).2.2.1,
   (C6_collection_failure_path envCollectFail (by decide) (by decide)).2.2.2.1,
   (C6_collection_failure_path envCollectFail (by decide) (by decide)).2.2.2.2.2.1⟩

/-- An element inserted by `spliceInsert` is a member of the result. -/
theorem mem_spliceInsert (n : Nat) (a : α) (l : List α) : a ∈ spliceInsert n a l := by
  induction l generalizing n with
  | nil => simp [spliceInsert]
  | cons x xs ih =>
    cases n with
    | zero => simp [spliceInsert]
    | succ m =>
      simp only [spliceInsert, List.mem_cons]
      exact Or.inr (ih m)

/-- Every entry of the explicit database list is non-empty and is the trim
of one comma-separated chunk of the configured value. -/
theorem dbArgs_spec (s : String) :
    ∀ d ∈ dbArgs s, d ≠ "" ∧ ∃ chunk ∈ jsSplit ',' s, d = jsTrim chunk := by
  intro d hd
  simp only [dbArgs, List.mem_filter, List.mem_map, decide_not] at hd
  obtain ⟨⟨chunk, hchunk, hmap⟩, hne⟩ := hd
  refine ⟨?_, chunk, hchunk, hmap.symm⟩
  simpa using hne

/-- C7: when the collector invocation is built, the "all databases" policy
injects the `--all-dbs` flag into the argument list; otherwise the
argument list is the base invocation with each database name from the
configured comma-separated list — trimmed and with empty entries filtered
out — appended as a trailing positional argument. -/
theorem C7_database_selection_args (c : Config) (tmpFile : String) :
    (ALL_DBS c = true → "--all-dbs" ∈ buildArgs c tmpFile)
    ∧ (ALL_DBS c = false →
        buildArgs c tmpFile = baseArgs c tmpFile ++ dbArgs c.PG_DATABASES
        ∧ ∀ d ∈ dbArgs c.PG_DATABASES,
            d ≠ "" ∧ ∃ chunk ∈ jsSplit ',' c.PG_DATABASES, d = jsTrim chunk) := by
  constructor
  · intro h
    simp only [buildArgs, h, if_true]
    exact mem_spliceInsert _ _ _
  · intro h
    refine ⟨?_, dbArgs_spec _⟩
    simp only [buildArgs, h, Bool.false_eq_true, if_false]

/-- Witness for C7: with the default configuration the policy is "all" and
`--all-dbs` appears in the argument list; with an explicit list the
trimmed names are appended. -/
theorem C7_database_selection_args_witness :
    "--all-dbs" ∈ buildArgs (configOf emptyEnv) "/tmp/x.json"
    ∧ buildArgs (configOf { emptyEnv with PG_DATABASES := some "db1, db2" }) "/tmp/x.json"
        = baseArgs (configOf { emptyEnv with PG_DATABASES := some "db1, db2" }) "/tmp/x.json"
          ++ ["db1", "db2"] :=
  ⟨(C7_database_selection_args (configOf emptyEnv) "/tmp/x.json").1 (by decide),
   ((C7_database_selection_args (configOf { emptyEnv with PG_DATABASES := some "db1, db2" })
      "/tmp/x.json").2 (by decide)).1⟩

/-- C8 counterexample: the claim says a missing (unconfigured) password
combined with a non-local host makes the process exit with a non-zero
status. At the concrete startup input — production mode, identity "srv1"
supplied, `PG_PASSWORD` unset, `PG_HOST` set to the remote
"db.example.com" — startup does not exit: the unset variable defaults to
"postgres", so the guard never fires. -/
theorem C8_startup_counterexample :
    startupExitCode false (some "srv1") none none (some "db.example.com") = none := by
  decide

/-- C8 amended: at startup outside test mode, a missing (absent or empty)
identity causes the process to exit immediately with status 1, and a
password explicitly configured as the empty string combined with a
non-local host also causes the process to exit immediately with status 1;
an unconfigured password, however, defaults to "postgres" and does not
trigger the password check, so startup proceeds whenever the identity is
present. -/
theorem C8_startup_amended (testMode : Bool)
    (serverIdEnv argv2 pgPasswordEnv pgHostEnv : Option String) :
    (testMode = false → (serverIdEnv <|> argv2).getD "" = "" →
      startupExitCode testMode serverIdEnv argv2 pgPasswordEnv pgHostEnv = some 1)
    ∧ (pgPasswordEnv = some "" → pgHostEnv.getD "/var/run/postgresql" ≠ "/var/run/postgresql" →
      startupExitCode testMode serverIdEnv argv2 pgPasswordEnv pgHostEnv = some 1)
    ∧ (pgPasswordEnv = none → (testMode = true ∨ (serverIdEnv <|> argv2).getD "" ≠ "") →
      startupExitCode testMode serverIdEnv argv2 pgPasswordEnv pgHostEnv = none) := by
  refine ⟨?_, ?_, ?_⟩
  · intro h1 h2
    simp [startupExitCode, h1, h2]
  · intro h1 h2
    simp only [startupExitCode, h1]
    split_ifs with hfirst hsecond
    · rfl
    · rfl
    · exact absurd ⟨rfl, h2⟩ hsecond
  · intro h1 h2
    simp only [startupExitCode, h1]
    split_ifs with hfirst hsecond
    · rcases h2 with h2 | h2
      · rw [h2] at hfirst
        simp at hfirst
      · exact absurd hfirst.2 h2
    · simp at hsecond
    · rfl

/-- Witness for C8 amended: with no identity at all, startup exits with
status 1; with identity "s" and an empty-string password against a remote
host, startup exits with status 1. -/
theorem C8_startup_amended_witness :
    startupExitCode false none none none none = some 1
    ∧ startupExitCode false (some "s") none (some "") (some "db.example.com") = some 1 :=
  ⟨(C8_startup_amended false none none none none).1 rfl rfl,
   (C8_startup_amended false (some "s") none (some "") (some "db.example.com")).2.1 rfl
     (by decide)⟩

/-- C9 counterexample: the claim says the omitted-sections list defaults
to "logs"; with every environment setting absent the code's value is
"log". -/
theorem C9_defaults_counterexample :
    (configOf emptyEnv).PG_OMIT = "log" ∧ (configOf emptyEnv).PG_OMIT ≠ "logs" := by
  decide

/-- C9 amended: when the corresponding environment settings are absent,
the recognized configuration settings take exactly these defaults:
database selection "all" (so the all-databases policy is in effect),
collection timeout seconds 60, omitted-sections list "log", max SQL text
length 10000, max tracked statements 10000, the standard port 5432, the
standard local socket /var/run/postgresql as host, and user and password
"postgres". -/
theorem C9_defaults_amended :
    configOf emptyEnv =
      { PGPASSWORD := "postgres", PGUSER := "postgres",
        PGHOST := "/var/run/postgresql", PGPORT := "5432",
        PG_DATABASES := "all", PG_TIMEOUT := "60", PG_OMIT := "log",
        PG_SQL_LENGTH := "10000", PG_STATEMENTS_LIMIT := "10000" }
    ∧ ALL_DBS (configOf emptyEnv) = true := by
  decide

/-- C10: after every denied admission check the iteration performs exactly
the denial branch's own wait followed by a further 250 ms sleep before the
next admission check, so the total time between two consecutive admission
checks is at least 250 ms and the loop never busy-spins on denial. -/
theorem C10_denial_backoff (env : IterEnv)
    (h : (shouldSend env.admission env.now).1 = false) :
    (runIteration env).waits = [(shouldSend env.admission env.now).2, 250]
    ∧ 250 ≤ (runIteration env).waits.sum := by
  simp only [runIteration, h]
  refine ⟨rfl, ?_⟩
  have := shouldSend_wait_nonneg env.admission env.now
  simp [List.sum]
  omega

/-- Witness for C10 at the concrete 403 denial: the iteration sleeps
30000 ms inside the admission check and then a further 250 ms. -/
theorem C10_denial_backoff_witness :
    (runIteration envDenied).waits = [30000, 250]
    ∧ 250 ≤ (runIteration envDenied).waits.sum :=
  C10_denial_backoff envDenied (by decide)
